import Mathlib

/-!
Shallow embedding of the asynchronous travel-planner orchestration core
(`app/main.py` together with the three agent modules), and proofs of the
spec's claims about it.

Modelling conventions:
* Each external collaborator (geocoding service, hotel database, weather
  API, itinerary generator, routing API) is represented by an oracle value
  describing the response the service produces during one run; the embedded
  functions translate the Python code that consumes those responses.
* Python exceptions that escape a function are modelled with `Except PyErr`;
  code whose `try/except` swallows every fault is total.
* Coordinates are opaque payload to the orchestrator (it never computes with
  them, only forwards them), so their two float fields are embedded as `Int`.
-/

namespace Planner

/-- Python exception kinds that can escape the modelled code. -/
inductive PyErr where
  | keyError
  | typeError
  | attributeError
deriving DecidableEq, Repr

/-- A geocoded point: `{"lat": ..., "lng": ...}` as built by `get_geocode`. -/
structure Coord where
  lat : Int
  lng : Int
deriving DecidableEq, Repr

/-- A hotel rating value: numeric (from the CSV ingest) or the literal
string `N/A` used by the sentinel hotel. -/
inductive Rating where
  | val (r : Int)
  | na
deriving DecidableEq, Repr

/-- A hotel dict as built by `HotelRecommenderAgent.find_hotels`: the four
keys are always present, each value may be Python `None` (from
`metadata.get`), modelled by `Option`. -/
structure Hotel where
  name : Option String := none
  description : Option String := none
  address : Option String := none
  rating : Option Rating := none
deriving DecidableEq, Repr

/-- One row of the daily-forecast frame assembled by
`WeatherAnalysisAgent.get_daily_forecast`. -/
structure ForecastDay where
  date : String
  tempMax : Int
  tempMin : Int
  precip : Int
  wind : Int
  code : Nat
deriving DecidableEq, Repr

/-- An itinerary-location dict parsed out of the generator's JSON: the
orchestrator reads `loc.get('day', 1)` (missing key tolerated) and
`loc['name']` (missing key raises `KeyError`). -/
structure Loc where
  day : Option Int := none
  name : Option String := none
deriving DecidableEq, Repr

/-- A map-marker dict built in Stage 4 of `main_task`. -/
structure Marker where
  lat : Int
  lng : Int
  name : String
  day : Int
  color : String
deriving DecidableEq, Repr

/-- A per-day route-polyline dict built in Stage 5 of `main_task`. -/
structure Polyline where
  day : Int
  polyline : String
  color : String
deriving DecidableEq, Repr

/-- The result dict returned by `main_task` on the success path. -/
structure Bundle where
  weather_df : List ForecastDay
  recommended_hotels : List Hotel
  itinerary_text : String
  map_markers : List Marker
  center_lat : Int
  center_lon : Int
  route_polylines : List Polyline
deriving DecidableEq, Repr

/-- Observable calls the orchestrator issues to external collaborators. -/
inductive CallEv where
  | geocodeCall (q : String)
  | hotelQuery (pref dest : String) (topK : Nat)
  | weatherCall
  | geminiCall (dest : String) (hotel : Hotel) (durationDays : Nat)
  | routerCall (wps : List Coord)
deriving DecidableEq, Repr

/-! ## External collaborator responses (oracles) -/

/-- Outcome of one HTTP request to the geocode.maps.co service, as seen by
`get_geocode`: an HTTP/transport error, a 200 whose parsing raises
(JSON/Key/Index/Type error, all caught), a well-formed but empty or
non-list result, or a first entry carrying coordinates. -/
inductive GeoResp where
  | httpError
  | parseError
  | noResults
  | found (c : Coord)
deriving DecidableEq, Repr

/-- Outcome of one ChromaDB query, as seen by
`HotelRecommenderAgent.find_hotels`: either the query raised, or it
returned metadata rows (possibly none). -/
inductive ChromaResp where
  | raises
  | ok (rows : List Hotel)
deriving DecidableEq, Repr

/-- Outcome of one Open-Meteo request, as seen by
`WeatherAnalysisAgent.get_daily_forecast`: a raised-and-caught failure
(HTTP error, transport error, or a fault while assembling the frame), a 200
without the `daily` key, or parsed daily rows. -/
inductive WeatherResp where
  | httpError
  | noDaily
  | daily (rows : List ForecastDay)
deriving DecidableEq, Repr

/-- A parsed JSON value returned by the itinerary generator: either a dict
(with the two optional keys the orchestrator reads) or some other JSON
value, on which `main_task`'s `.get` raises `AttributeError`. -/
inductive ItinJson where
  | nonDict
  | dict (itinerary_text : Option String) (locations : Option (List Loc))
deriving DecidableEq, Repr

/-- How `json.loads` fares on the candidate text of a Gemini response:
parses directly, parses only after `_clean_json_response`, or neither. -/
inductive CandParse where
  | parsesTo (v : ItinJson)
  | cleanedParsesTo (v : ItinJson)
  | unparsable
deriving DecidableEq, Repr

/-- Shape of a parsed 200 Gemini body: no `candidates` key (blocked),
a malformed candidate path (the indexing raises, caught by the generic
handler carrying message `emsg`), or a candidate text. -/
inductive GeminiExtract where
  | blocked
  | badShape (emsg : String)
  | text (p : CandParse)
deriving DecidableEq, Repr

/-- Outcome of the Gemini HTTP POST, as seen by
`ItineraryPlannerAgent.create_itinerary`. -/
inductive GeminiResp where
  | transportError (emsg : String)
  | httpStatusError (body : String)
  | okNonJsonBody
  | okJson (e : GeminiExtract)
deriving DecidableEq, Repr

/-- Outcome of one Google Directions request, as seen by
`get_google_directions`: a raised-and-caught failure, a 200 whose status is
not `OK` or has no routes, or an overview polyline. -/
inductive RouterResp where
  | httpError
  | notOk
  | ok (polyline : String)
deriving DecidableEq, Repr

/-- The external world of one orchestration run.  Geocode responses are
keyed by the queried text and router responses by the waypoint list;
the hotel, weather and Gemini services are each consulted exactly once per
run, so a single response value suffices for them. -/
structure Oracle where
  geocode : String → GeoResp
  chroma : ChromaResp
  weather : WeatherResp
  gemini : GeminiResp
  router : List Coord → RouterResp

/-- The environment configuration read at module load in `main.py`; only
the geocoding key influences modelled control flow. -/
structure Config where
  geocode_maps_co_api_key : Option String
deriving DecidableEq, Repr

/-! ## Embedded helper functions of `app/main.py` -/

/-- `get_geocode` (main.py): returns `None` when the API key is missing,
otherwise translates the service response; every fault inside the `try`
is caught and yields `None`. -/
def get_geocode (cfg : Config) (svc : String → GeoResp) (address : String) :
    Option Coord :=
  if cfg.geocode_maps_co_api_key.isNone then none
  else
    match svc address with
    | .httpError => none
    | .parseError => none
    | .noResults => none
    | .found c => some c

/-- The day-colour palette of `get_day_color` (main.py). -/
def day_colors : List String :=
  ["#FF0000", "#0000FF", "#008000", "#FFFF00", "#00FFFF", "#FF00FF", "#FFA500"]

/-- `get_day_color` (main.py): `colors[(day - 1) % len(colors)]`; Python's
`%` on ints agrees with `Int.emod` for a positive modulus. -/
def get_day_color (day : Int) : String :=
  day_colors.getD ((day - 1).emod 7).toNat ""

/-- `get_google_directions` (main.py): fewer than two waypoints returns
`None` before the HTTP request is built; otherwise one external request is
issued and every failure (raised-and-caught or non-`OK` status) yields
`None`.  The second component records the external Router calls made. -/
def get_google_directions (router : List Coord → RouterResp)
    (waypoints_list : List Coord) : Option String × List CallEv :=
  if waypoints_list.length < 2 then (none, [])
  else
    match router waypoints_list with
    | .httpError => (none, [.routerCall waypoints_list])
    | .notOk => (none, [.routerCall waypoints_list])
    | .ok p => (some p, [.routerCall waypoints_list])

/-! ## Embedded agents -/

/-- The sentinel hotel returned by `find_hotels` when the ChromaDB query
raises (hotel_agent.py line 136). -/
def errorHotel : Hotel :=
  { name := some "Error"
    description := some "Error querying database."
    address := some ""
    rating := some .na }

/-- `HotelRecommenderAgent.find_hotels`: an empty metadata result yields
`[]`; each metadata row becomes a hotel dict; a raised error yields the
one-element sentinel list, not `[]`. -/
def find_hotels : ChromaResp → List Hotel
  | .raises => [errorHotel]
  | .ok rows => rows

/-- `WeatherAnalysisAgent.get_daily_forecast`: the date arithmetic at the
top always succeeds on the `%Y-%m-%d` strings `main.py` produces, and every
fault inside the `try` is caught, so the result is a plain row list, empty
on any failure. -/
def get_daily_forecast : WeatherResp → List ForecastDay
  | .httpError => []
  | .noDaily => []
  | .daily rows => rows

/-- `ItineraryPlannerAgent.create_itinerary`: translates every handler.
The one path that escapes is a 200 response whose body is not JSON:
`response.json()` raises `json.JSONDecodeError` while `raw_response_text`
is still `None`, and the recovery call
`_clean_json_response(None)` raises `TypeError` inside the handler. -/
def create_itinerary : GeminiResp → Except PyErr ItinJson
  | .transportError emsg =>
      .ok (.dict (some ("Error: " ++ emsg)) (some []))
  | .httpStatusError body =>
      .ok (.dict (some ("Error: Gemini API request failed: " ++ body)) (some []))
  | .okNonJsonBody => .error .typeError
  | .okJson .blocked =>
      .ok (.dict (some "Error: The AI response was blocked or empty.") (some []))
  | .okJson (.badShape emsg) =>
      .ok (.dict (some ("Error: " ++ emsg)) (some []))
  | .okJson (.text (.parsesTo v)) => .ok v
  | .okJson (.text (.cleanedParsesTo v)) => .ok v
  | .okJson (.text .unparsable) =>
      .ok (.dict (some "Error: The AI returned an invalid itinerary format.") (some []))

/-! ## Stage 4: per-location geocoding (main.py lines 354-378) -/

/-- `loc.get('day', 1)`. -/
def dayOf (l : Loc) : Int := l.day.getD 1

/-- One step of building `day_groups`: a Python dict keeps keys in first
insertion order and `day_groups[day].append(loc)` appends at the end. -/
def insertLoc : List (Int × List Loc) → Int → Loc → List (Int × List Loc)
  | [], d, l => [(d, [l])]
  | g :: gs, d, l =>
      if g.1 = d then (g.1, g.2 ++ [l]) :: gs else g :: insertLoc gs d l

/-- The `day_groups` dict built from the generator's locations. -/
def groupByDay (locations : List Loc) : List (Int × List Loc) :=
  locations.foldl (fun gs l => insertLoc gs (dayOf l) l) []

/-- Iterating `for day, locs in day_groups.items(): for loc in locs`. -/
def flatten_tasks : List (Int × List Loc) → List (Int × Loc)
  | [] => []
  | g :: gs => g.2.map (fun l => (g.1, l)) ++ flatten_tasks gs

/-- Reading `loc['name']` for each task tuple: a location without the
`name` key raises `KeyError` before any geocode task is awaited. -/
def extractNames : List (Int × Loc) → Except PyErr (List (Int × String))
  | [] => .ok []
  | q :: rest =>
      match q.2.name with
      | none => .error .keyError
      | some nm => (extractNames rest).map (fun ts => (q.1, nm) :: ts)

/-- The marker dict appended for a successful per-location geocode. -/
def mkMarker (day : Int) (nm : String) (c : Coord) : Marker :=
  { lat := c.lat, lng := c.lng, name := nm, day := day, color := get_day_color day }

/-- `for i, lat_lng in enumerate(geocode_results)`: `asyncio.gather`
returns results in submission order, so result `i` is paired with
`geocode_tasks[i]`; a `None` result is dropped. -/
def collectMarkers : List (Int × String) → List (Option Coord) → List Marker
  | t :: ts, some c :: rs => mkMarker t.1 t.2 c :: collectMarkers ts rs
  | _ :: ts, none :: rs => collectMarkers ts rs
  | _, _ => []

/-- Stage 4 of `main_task`: group by day, fan out one geocode per
location, and regroup successes into markers.  Errors are the `KeyError`
of a missing `name` key, which escapes the orchestrator. -/
def stage4 (cfg : Config) (geo : String → GeoResp) (locations : List Loc) :
    Except PyErr (List Marker × List CallEv) :=
  if locations.isEmpty then .ok ([], [])
  else
    match extractNames (flatten_tasks (groupByDay locations)) with
    | .error e => .error e
    | .ok tasks =>
        .ok (collectMarkers tasks (tasks.map (fun t => get_geocode cfg geo t.2)),
             tasks.map (fun t => CallEv.geocodeCall t.2))

/-! ## Stage 5: per-day routing (main.py lines 381-397) -/

/-- Sorted insert without duplicates, building the sorted key set that
`pandas.groupby('day')` iterates. -/
def sortedInsert (d : Int) : List Int → List Int
  | [] => [d]
  | x :: xs => if d < x then d :: x :: xs else if d = x then x :: xs else x :: sortedInsert d xs

/-- The distinct day keys in ascending order. -/
def sortedDays (ds : List Int) : List Int :=
  ds.foldl (fun acc d => sortedInsert d acc) []

/-- `pd.DataFrame(map_markers).groupby('day')`: keys ascending, rows of a
group in original order. -/
def groupMarkersByDay (ms : List Marker) : List (Int × List Marker) :=
  (sortedDays (ms.map (fun m => m.day))).map
    (fun d => (d, ms.filter (fun m => m.day == d)))

/-- The `(day, day_waypoints)` tuples of `route_tasks`. -/
def routeTasks (ms : List Marker) : List (Int × List Coord) :=
  (groupMarkersByDay ms).map (fun g => (g.1, g.2.map (fun m => Coord.mk m.lat m.lng)))

/-- Pairing `route_results[i]` with `route_tasks[i]` and dropping `None`. -/
def collectPolylines : List (Int × List Coord) → List (Option String) → List Polyline
  | t :: ts, some p :: rs =>
      { day := t.1, polyline := p, color := get_day_color t.1 } :: collectPolylines ts rs
  | _ :: ts, none :: rs => collectPolylines ts rs
  | _, _ => []

/-- Concatenate the router-call events of the per-day direction fetches. -/
def joinEvents : List (Option String × List CallEv) → List CallEv
  | [] => []
  | o :: os => o.2 ++ joinEvents os

/-- Stage 5 of `main_task`: group markers by day, fetch one route per
group, and keep the polylines that came back. -/
def stage5 (router : List Coord → RouterResp) (map_markers : List Marker) :
    List Polyline × List CallEv :=
  if map_markers.isEmpty then ([], [])
  else
    (collectPolylines (routeTasks map_markers)
       ((routeTasks map_markers).map (fun t => (get_google_directions router t.2).1)),
     joinEvents ((routeTasks map_markers).map (fun t => get_google_directions router t.2)))

/-! ## The orchestrator `main_task` (main.py lines 307-407) -/

/-- The fallback hotel `{"name": f"Hotel in {destination}"}`. -/
def placeholderHotel (destination : String) : Hotel :=
  { name := some ("Hotel in " ++ destination) }

/-- `top_hotel`: the first ranked hotel, or the placeholder when the
search came back empty. -/
def chooseTopHotel (recommended_hotels : List Hotel) (destination : String) : Hotel :=
  match recommended_hotels with
  | [] => placeholderHotel destination
  | h :: _ => h

/-- The external calls a run has issued once the Stage-3 join completes:
the destination geocode, the hotel query, and the two parallel Stage-3
fetches. -/
def mainTrace (env : Oracle) (destination preferences : String) (duration : Nat) :
    List CallEv :=
  [.geocodeCall destination,
   .hotelQuery preferences destination 3,
   .weatherCall,
   .geminiCall destination (chooseTopHotel (find_hotels env.chroma) destination) duration]

/-- The result dict of a run that reaches aggregation. -/
def mkBundle (env : Oracle) (dest_loc : Coord) (itinerary_text : Option String)
    (p : List Marker × List CallEv) : Bundle :=
  { weather_df := get_daily_forecast env.weather
    recommended_hotels := find_hotels env.chroma
    itinerary_text := itinerary_text.getD "Error"
    map_markers := p.1
    center_lat := dest_loc.lat
    center_lon := dest_loc.lng
    route_polylines := (stage5 env.router p.1).1 }

/-- The orchestrator.  `.ok none` is the abort return (`return` with no
value after the destination geocode fails); `.error e` is an exception
escaping `main_task`; `.ok (some b)` is the aggregated result dict.  The
first component lists the external calls issued. -/
def main_task (env : Oracle) (cfg : Config) (destination preferences : String)
    (duration : Nat) : List CallEv × Except PyErr (Option Bundle) :=
  match get_geocode cfg env.geocode destination with
  | none => ([.geocodeCall destination], .ok none)
  | some dest_loc =>
      match create_itinerary env.gemini with
      | .error e => (mainTrace env destination preferences duration, .error e)
      | .ok .nonDict =>
          (mainTrace env destination preferences duration, .error .attributeError)
      | .ok (.dict itinerary_text locations) =>
          match stage4 cfg env.geocode (locations.getD []) with
          | .error e => (mainTrace env destination preferences duration, .error e)
          | .ok p =>
              (mainTrace env destination preferences duration ++ p.2 ++
                 (stage5 env.router p.1).2,
               .ok (some (mkBundle env dest_loc itinerary_text p)))

/-- The location list the itinerary generator handed to Stage 4. -/
def generatedLocations (g : GeminiResp) : List Loc :=
  match create_itinerary g with
  | .ok (.dict _ locations) => locations.getD []
  | _ => []

/-- Whether the Gemini outcome is a failure that the agent's own handlers
catch (everything except a successful parse and except the escaping
non-JSON-body path). -/
def geminiFailedGuarded : GeminiResp → Bool
  | .transportError _ => true
  | .httpStatusError _ => true
  | .okNonJsonBody => false
  | .okJson .blocked => true
  | .okJson (.badShape _) => true
  | .okJson (.text .unparsable) => true
  | .okJson (.text _) => false

/-! ## The geocode memoization table (`@st.cache_data(ttl=3600)`) -/

/-- Linear lookup in the memo table, keyed by the exact input text. -/
def lookupCache : List (String × Option Coord) → String → Option (Option Coord)
  | [], _ => none
  | e :: rest, a => if e.1 = a then some e.2 else lookupCache rest a

/-- The cache state: memo table plus the number of external lookups made
so far (indexing a possibly fresh service response per lookup). -/
structure GeoState where
  cache : List (String × Option Coord)
  calls : Nat
deriving DecidableEq, Repr

/-- `get_geocode` as decorated with `st.cache_data(ttl=3600)`: a hit
returns the memoized value with no external lookup; a miss runs the body
once and records the value.  The table lives for the TTL window, which
covers a whole run.  The external service is a stream `svc` consulted at
the current call index, so distinct physical lookups may answer
differently.  The `Bool` reports whether an external lookup happened. -/
def cachedGeocode (cfg : Config) (svc : Nat → String → GeoResp) (st : GeoState)
    (address : String) : Option Coord × GeoState × Bool :=
  match lookupCache st.cache address with
  | some v => (v, st, false)
  | none =>
      let v := get_geocode cfg (svc st.calls) address
      (v, ⟨(address, v) :: st.cache, st.calls + 1⟩, true)

/-- Run a sequence of geocode requests through the cache, recording for
each request its text, its returned value, and whether it went external. -/
def runGeocodes (cfg : Config) (svc : Nat → String → GeoResp) :
    GeoState → List String → List (String × Option Coord × Bool)
  | _, [] => []
  | st, a :: as =>
      let r := cachedGeocode cfg svc st a
      (a, r.1, r.2.2) :: runGeocodes cfg svc r.2.1 as

/-- How many actual external lookups the run made for `addr`. -/
def lookupsFor (cfg : Config) (svc : Nat → String → GeoResp) (reqs : List String)
    (addr : String) : Nat :=
  ((runGeocodes cfg svc ⟨[], 0⟩ reqs).filter (fun q => q.1 == addr && q.2.2)).length

/-- The values returned for the requests with text `addr`. -/
def resultsFor (cfg : Config) (svc : Nat → String → GeoResp) (reqs : List String)
    (addr : String) : List (Option Coord) :=
  ((runGeocodes cfg svc ⟨[], 0⟩ reqs).filter (fun q => q.1 == addr)).map
    (fun q => q.2.1)

/-! ## Closed forms for Stage 4 when every location carries a name -/

/-- The `(day, name)` task tuples of Stage 4, in dict-grouping order. -/
def namedTasks (L : List Loc) : List (Int × String) :=
  (flatten_tasks (groupByDay L)).map (fun q => (q.1, q.2.name.getD ""))

/-- The marker list Stage 4 produces. -/
def stage4Markers (cfg : Config) (geo : String → GeoResp) (L : List Loc) :
    List Marker :=
  collectMarkers (namedTasks L) ((namedTasks L).map (fun t => get_geocode cfg geo t.2))

/-- The geocode calls Stage 4 issues: one per task tuple. -/
def stage4Events (L : List Loc) : List CallEv :=
  (namedTasks L).map (fun t => CallEv.geocodeCall t.2)

/-- The bundle of a successful run outcome (default value otherwise). -/
def bundleOrDefault : Except PyErr (Option Bundle) → Bundle
  | .ok (some b) => b
  | _ => { weather_df := [], recommended_hotels := [], itinerary_text := ""
           map_markers := [], center_lat := 0, center_lon := 0, route_polylines := [] }

/-! ## Concrete run environments used by witnesses and counterexamples -/

/-- A configuration whose geocoding API key is present. -/
def cfgA : Config := { geocode_maps_co_api_key := some "k" }

/-- One parsed forecast row used by several concrete runs. -/
def fdayA : ForecastDay :=
  { date := "2026-10-12", tempMax := 30, tempMin := 25, precip := 0, wind := 10, code := 0 }

/-- C1 counterexample run: the weather fetch succeeds but the itinerary
task raises (200 Gemini response with a non-JSON body). -/
def envC1x : Oracle :=
  { geocode := fun _ => .found ⟨10, 20⟩
    chroma := .ok []
    weather := .daily [fdayA]
    gemini := .okNonJsonBody
    router := fun _ => .notOk }

/-- C1 amended-claim witness run: the weather fetch faults, one location
geocode faults, the routing faults, the itinerary parses. -/
def envC1a : Oracle :=
  { geocode := fun q => if q = "Lyon" then .found ⟨4, 5⟩ else .noResults
    chroma := .raises
    weather := .httpError
    gemini := .okJson (.text (.parsesTo
      (.dict (some "itin") (some [{ day := some 1, name := some "Parc" }]))))
    router := fun _ => .httpError }

/-- C2 witness run: the destination geocode finds nothing. -/
def envC2 : Oracle :=
  { geocode := fun _ => .noResults
    chroma := .ok []
    weather := .daily [fdayA]
    gemini := .okJson (.text (.parsesTo (.dict (some "t") (some []))))
    router := fun _ => .notOk }

/-- C3 witness geocode service: only the name `A` resolves. -/
def geoC3 : String → GeoResp :=
  fun q => if q = "A" then .found ⟨1, 1⟩ else .noResults

/-- C3 witness locations: two locations, exactly one geocode failure. -/
def locsC3 : List Loc :=
  [{ day := some 1, name := some "A" }, { day := some 2, name := some "B" }]

/-- C4 witness markers: two markers on day 1, one marker on day 2. -/
def msC4 : List Marker :=
  [{ lat := 1, lng := 1, name := "a", day := 1, color := "#FF0000" },
   { lat := 2, lng := 2, name := "b", day := 1, color := "#FF0000" },
   { lat := 3, lng := 3, name := "c", day := 2, color := "#0000FF" }]

/-- C4 witness router: every request succeeds. -/
def r1C4 : List Coord → RouterResp := fun _ => .ok "pl"

/-- C4 witness router: the day-1 request fails, all others succeed. -/
def r2C4 : List Coord → RouterResp :=
  fun wps => if wps = [⟨1, 1⟩, ⟨2, 2⟩] then .httpError else .ok "pl"

/-- C5 counterexample run: the hotel search is empty and the itinerary
task raises, so no bundle is produced. -/
def envC5x : Oracle :=
  { geocode := fun _ => .found ⟨19, 72⟩
    chroma := .ok []
    weather := .daily [fdayA]
    gemini := .okNonJsonBody
    router := fun _ => .notOk }

/-- C5 amended-claim witness run: the hotel search is empty and the rest
of the run is healthy. -/
def envC5a : Oracle :=
  { geocode := fun _ => .found ⟨19, 72⟩
    chroma := .ok []
    weather := .daily [fdayA]
    gemini := .okJson (.text (.parsesTo (.dict (some "plan") (some []))))
    router := fun _ => .notOk }

/-- C7 counterexample run: a 200 Gemini response with a non-JSON body
aborts the run instead of degrading the itinerary slice. -/
def envC7x : Oracle :=
  { geocode := fun _ => .found ⟨15, 74⟩
    chroma := .ok [{ name := some "Resort", description := some "d",
                     address := some "Goa", rating := some (.val 4) }]
    weather := .daily [fdayA]
    gemini := .okNonJsonBody
    router := fun _ => .notOk }

/-- C7 amended-claim witness run: a blocked Gemini response degrades to a
sentinel itinerary and the run still aggregates. -/
def envC7a : Oracle :=
  { geocode := fun _ => .found ⟨15, 74⟩
    chroma := .ok []
    weather := .httpError
    gemini := .okJson .blocked
    router := fun _ => .notOk }

/-- C8 witness run: three locations, two resolving on day 1 and one on
day 2, so day 1 routes and day 2 does not. -/
def envC8 : Oracle :=
  { geocode := fun q =>
      if q = "Mumbai" then .found ⟨19, 72⟩
      else if q = "Gateway" then .found ⟨1, 2⟩
      else if q = "Museum" then .found ⟨3, 4⟩
      else .noResults
    chroma := .ok [{ name := some "Taj", description := some "Luxury",
                     address := some "Mumbai", rating := some (.val 5) }]
    weather := .daily [fdayA]
    gemini := .okJson (.text (.parsesTo (.dict (some "plan")
      (some [{ day := some 1, name := some "Gateway" },
             { day := some 1, name := some "Museum" },
             { day := some 2, name := some "Gateway" }]))))
    router := fun wps => if 2 ≤ wps.length then .ok "pl" else .notOk }

/-- C9 witness geocode stream: a second external lookup would answer
differently, so equal results witness the memoization. -/
def svcC9 : Nat → String → GeoResp :=
  fun n _ => if n = 0 then .found ⟨7, 8⟩ else .noResults

/-- C10 witness run: the itinerary parses but its single location has no
`name` key. -/
def envC10 : Oracle :=
  { geocode := fun _ => .found ⟨1, 2⟩
    chroma := .ok []
    weather := .daily [fdayA]
    gemini := .okJson (.text (.parsesTo
      (.dict (some "t") (some [{ day := some 1, name := none }]))))
    router := fun _ => .notOk }

/-! ## Supporting lemmas: grouping is a permutation -/

theorem flatten_insertLoc (gs : List (Int × List Loc)) (d : Int) (l : Loc) :
    (flatten_tasks (insertLoc gs d l)).Perm ((d, l) :: flatten_tasks gs) := by
  induction gs with
  | nil => simp [insertLoc, flatten_tasks]
  | cons g gs ih =>
      by_cases h : g.1 = d
      · subst h
        simp only [insertLoc, if_pos rfl, flatten_tasks, List.map_append, List.map_cons,
          List.map_nil, List.append_assoc, List.singleton_append]
        exact List.perm_middle.trans (by simp)
      · simp only [insertLoc, if_neg h, flatten_tasks]
        exact ((ih.append_left _).trans List.perm_middle)

theorem flatten_foldl_perm (L : List Loc) :
    ∀ gs, (flatten_tasks (L.foldl (fun gs l => insertLoc gs (dayOf l) l) gs)).Perm
      (flatten_tasks gs ++ L.map (fun l => (dayOf l, l))) := by
  induction L with
  | nil => intro gs; simp
  | cons x L ih =>
      intro gs
      simp only [List.foldl_cons]
      refine (ih (insertLoc gs (dayOf x) x)).trans ?_
      have h2 := (flatten_insertLoc gs (dayOf x) x).append_right
        (L.map (fun l => (dayOf l, l)))
      refine h2.trans ?_
      simpa using List.perm_middle.symm

theorem flatten_groupByDay_perm (L : List Loc) :
    (flatten_tasks (groupByDay L)).Perm (L.map (fun l => (dayOf l, l))) := by
  simpa [groupByDay, flatten_tasks] using flatten_foldl_perm L []

theorem flatten_groupByDay_length (L : List Loc) :
    (flatten_tasks (groupByDay L)).length = L.length := by
  simpa using (flatten_groupByDay_perm L).length_eq

/-! ## Supporting lemmas: name extraction -/

theorem extractNames_ok_length {ts : List (Int × Loc)} {ns : List (Int × String)}
    (h : extractNames ts = .ok ns) : ns.length = ts.length := by
  induction ts generalizing ns with
  | nil => simp [extractNames] at h; simp [← h]
  | cons q ts ih =>
      simp only [extractNames] at h
      cases hq : q.2.name with
      | none => rw [hq] at h; cases h
      | some nm =>
          rw [hq] at h
          cases hr : extractNames ts with
          | error e => rw [hr] at h; cases h
          | ok ns' =>
              rw [hr] at h
              simp only [Except.map] at h
              cases h
              simp [ih hr]

theorem extractNames_of_names {ts : List (Int × Loc)}
    (h : ∀ q ∈ ts, q.2.name.isSome) :
    extractNames ts = .ok (ts.map (fun q => (q.1, q.2.name.getD ""))) := by
  induction ts with
  | nil => simp [extractNames]
  | cons q ts ih =>
      have hq : q.2.name.isSome := h q (List.mem_cons_self q ts)
      cases hqn : q.2.name with
      | none => rw [hqn] at hq; cases hq
      | some nm =>
          simp only [extractNames, hqn]
          rw [ih (fun r hr => h r (List.mem_cons_of_mem q hr))]
          simp [Except.map, hqn]

theorem extractNames_error_of_mem {ts : List (Int × Loc)} {q : Int × Loc}
    (hq : q ∈ ts) (hn : q.2.name = none) :
    extractNames ts = .error .keyError := by
  induction ts with
  | nil => cases hq
  | cons r ts ih =>
      rcases List.mem_cons.mp hq with h | h
      · subst h
        simp [extractNames, hn]
      · simp only [extractNames]
        cases hr : r.2.name with
        | none => rfl
        | some nm => rw [ih h]; rfl

/-! ## Supporting lemmas: marker collection -/

theorem collectMarkers_map_eq_filterMap (f : Int × String → Option Coord) :
    ∀ ts : List (Int × String),
      collectMarkers ts (ts.map f) =
        ts.filterMap (fun t => (f t).map (fun c => mkMarker t.1 t.2 c)) := by
  intro ts
  induction ts with
  | nil => simp [collectMarkers]
  | cons t ts ih =>
      cases hf : f t with
      | none => simp [collectMarkers, hf, ih]
      | some c => simp [collectMarkers, hf, ih]

theorem collectMarkers_map_length (f : Int × String → Option Coord)
    (ts : List (Int × String)) :
    (collectMarkers ts (ts.map f)).length =
      (ts.filter (fun t => (f t).isSome)).length := by
  rw [collectMarkers_map_eq_filterMap]
  induction ts with
  | nil => simp
  | cons t ts ih =>
      cases hf : f t with
      | none => simp [List.filterMap_cons, List.filter_cons, hf, ih]
      | some c => simp [List.filterMap_cons, List.filter_cons, hf, ih]

theorem stage4_ok_of_names (cfg : Config) (geo : String → GeoResp)
    (L : List Loc) (h : ∀ l ∈ L, l.name.isSome) :
    stage4 cfg geo L = .ok (stage4Markers cfg geo L, stage4Events L) := by
  have htasks : ∀ q ∈ flatten_tasks (groupByDay L), (q.2).name.isSome := by
    intro q hq
    have := (flatten_groupByDay_perm L).mem_iff.mp hq
    rcases List.mem_map.mp this with ⟨l, hl, rfl⟩
    exact h l hl
  cases hL : L.isEmpty with
  | true =>
      cases L with
      | nil =>
          simp [stage4, stage4Markers, stage4Events, namedTasks, groupByDay,
            flatten_tasks, collectMarkers]
      | cons a as => simp [List.isEmpty] at hL
  | false =>
      simp only [stage4, hL, Bool.false_eq_true, if_false]
      rw [extractNames_of_names htasks]
      rfl

/-! ## Supporting lemmas: Stage 5 grouping and collection -/

theorem mem_sortedInsert {x d : Int} :
    ∀ {l : List Int}, x ∈ sortedInsert d l → x = d ∨ x ∈ l := by
  intro l
  induction l with
  | nil => intro h; simpa [sortedInsert] using h
  | cons y ys ih =>
      intro h
      simp only [sortedInsert] at h
      by_cases h1 : d < y
      · rw [if_pos h1] at h
        rcases List.mem_cons.mp h with h | h
        · exact Or.inl h
        · exact Or.inr h
      · rw [if_neg h1] at h
        by_cases h2 : d = y
        · rw [if_pos h2] at h; exact Or.inr h
        · rw [if_neg h2] at h
          rcases List.mem_cons.mp h with h | h
          · exact Or.inr (by simp [h])
          · rcases ih h with h | h
            · exact Or.inl h
            · exact Or.inr (List.mem_cons_of_mem y h)

theorem mem_sortedDays_aux {x : Int} :
    ∀ (ds : List Int) (acc : List Int),
      x ∈ ds.foldl (fun a d => sortedInsert d a) acc → x ∈ acc ∨ x ∈ ds := by
  intro ds
  induction ds with
  | nil => intro acc h; exact Or.inl h
  | cons d ds ih =>
      intro acc h
      simp only [List.foldl_cons] at h
      rcases ih (sortedInsert d acc) h with h | h
      · rcases mem_sortedInsert h with h | h
        · exact Or.inr (by simp [h])
        · exact Or.inl h
      · exact Or.inr (List.mem_cons_of_mem d h)

theorem mem_of_mem_sortedDays {x : Int} {ds : List Int}
    (h : x ∈ sortedDays ds) : x ∈ ds := by
  rcases mem_sortedDays_aux ds [] h with h | h
  · cases h
  · exact h

/-- Every group of `groupMarkersByDay` is the full day-slice of the
marker list, keyed by a day that some marker carries. -/
theorem mem_groupMarkersByDay {ms : List Marker} {g : Int × List Marker}
    (h : g ∈ groupMarkersByDay ms) :
    g.2 = ms.filter (fun m => m.day == g.1) ∧ ∃ m ∈ ms, m.day = g.1 := by
  rcases List.mem_map.mp h with ⟨d, hd, rfl⟩
  refine ⟨rfl, ?_⟩
  have := mem_of_mem_sortedDays hd
  rcases List.mem_map.mp this with ⟨m, hm, rfl⟩
  exact ⟨m, hm, rfl⟩

theorem mem_collectPolylines {p : Polyline} :
    ∀ {ts : List (Int × List Coord)} {rs : List (Option String)},
      p ∈ collectPolylines ts rs → ∃ t ∈ ts, p.day = t.1 := by
  intro ts
  induction ts with
  | nil => intro rs h; cases rs <;> simp [collectPolylines] at h
  | cons t ts ih =>
      intro rs h
      cases rs with
      | nil => simp [collectPolylines] at h
      | cons r rs =>
          cases r with
          | none =>
              rcases ih h with ⟨t', ht', hd⟩
              exact ⟨t', List.mem_cons_of_mem t ht', hd⟩
          | some s =>
              rcases List.mem_cons.mp h with h | h
              · exact ⟨t, List.mem_cons_self t ts, by simp [h]⟩
              · rcases ih h with ⟨t', ht', hd⟩
                exact ⟨t', List.mem_cons_of_mem t ht', hd⟩

/-- Polylines paired against the direction results of their own tasks:
each polyline records its task's day and a successful fetch. -/
theorem mem_collectPolylines_map {router : List Coord → RouterResp} {p : Polyline} :
    ∀ {ts : List (Int × List Coord)},
      p ∈ collectPolylines ts (ts.map (fun t => (get_google_directions router t.2).1)) →
      ∃ t ∈ ts, p.day = t.1 ∧
        (get_google_directions router t.2).1 = some p.polyline := by
  intro ts
  induction ts with
  | nil => intro h; simp [collectPolylines] at h
  | cons t ts ih =>
      intro h
      rw [List.map_cons] at h
      cases hr : (get_google_directions router t.2).1 with
      | none =>
          rw [hr] at h
          rcases ih h with ⟨t', ht', hd, hp⟩
          exact ⟨t', List.mem_cons_of_mem t ht', hd, hp⟩
      | some s =>
          rw [hr] at h
          rcases List.mem_cons.mp h with h | h
          · refine ⟨t, List.mem_cons_self t ts, by simp [h], ?_⟩
            rw [hr, h]
          · rcases ih h with ⟨t', ht', hd, hp⟩
            exact ⟨t', List.mem_cons_of_mem t ht', hd, hp⟩

theorem mem_joinEvents {e : CallEv} :
    ∀ {os : List (Option String × List CallEv)},
      e ∈ joinEvents os → ∃ o ∈ os, e ∈ o.2 := by
  intro os
  induction os with
  | nil => intro h; simp [joinEvents] at h
  | cons o os ih =>
      intro h
      rcases List.mem_append.mp h with h | h
      · exact ⟨o, List.mem_cons_self o os, h⟩
      · rcases ih h with ⟨o', ho', he⟩
        exact ⟨o', List.mem_cons_of_mem o ho', he⟩

/-- Router-call events arise only from waypoint lists of length at least
two, and carry exactly those waypoints. -/
theorem get_google_directions_events {router : List Coord → RouterResp}
    {wps : List Coord} {e : CallEv} (h : e ∈ (get_google_directions router wps).2) :
    2 ≤ wps.length ∧ e = .routerCall wps := by
  by_cases hl : wps.length < 2
  · simp [get_google_directions, hl] at h
  · refine ⟨Nat.le_of_not_lt hl, ?_⟩
    cases hr : router wps <;> simp [get_google_directions, hl, hr] at h <;> exact h

/-- Short waypoint lists make no external call and return `None`. -/
theorem get_google_directions_short {router : List Coord → RouterResp}
    {wps : List Coord} (h : wps.length < 2) :
    get_google_directions router wps = (none, []) := by
  simp [get_google_directions, h]

/-- Every polyline of Stage 5 carries the day of one of the markers. -/
theorem stage5_day_mem {router : List Coord → RouterResp} {ms : List Marker}
    {p : Polyline} (h : p ∈ (stage5 router ms).1) :
    ∃ m ∈ ms, m.day = p.day := by
  by_cases hms : ms.isEmpty
  · simp [stage5, hms] at h
  · simp only [stage5, hms, Bool.false_eq_true, if_false] at h
    rcases mem_collectPolylines h with ⟨t, ht, hd⟩
    rcases List.mem_map.mp ht with ⟨g, hg, rfl⟩
    rcases (mem_groupMarkersByDay hg).2 with ⟨m, hm, hday⟩
    exact ⟨m, hm, by simp [hday, hd]⟩

/-! ## Supporting lemmas: the orchestrator -/

theorem main_task_success {env : Oracle} {cfg : Config}
    {destination preferences : String} {duration : Nat} {c : Coord}
    {t? : Option String} {l? : Option (List Loc)} {p : List Marker × List CallEv}
    (hg : get_geocode cfg env.geocode destination = some c)
    (hi : create_itinerary env.gemini = .ok (.dict t? l?))
    (hs : stage4 cfg env.geocode (l?.getD []) = .ok p) :
    main_task env cfg destination preferences duration =
      (mainTrace env destination preferences duration ++ p.2 ++
         (stage5 env.router p.1).2,
       .ok (some (mkBundle env c t? p))) := by
  simp only [main_task, hg, hi, hs]

theorem main_task_ok_inv {env : Oracle} {cfg : Config}
    {destination preferences : String} {duration : Nat}
    {tr : List CallEv} {b : Bundle}
    (h : main_task env cfg destination preferences duration = (tr, .ok (some b))) :
    ∃ (c : Coord) (t? : Option String) (l? : Option (List Loc))
      (p : List Marker × List CallEv),
      get_geocode cfg env.geocode destination = some c ∧
      create_itinerary env.gemini = .ok (.dict t? l?) ∧
      stage4 cfg env.geocode (l?.getD []) = .ok p ∧
      tr = mainTrace env destination preferences duration ++ p.2 ++
        (stage5 env.router p.1).2 ∧
      b = mkBundle env c t? p := by
  unfold main_task at h
  split at h
  · simp at h
  · rename_i c hg
    split at h
    · simp at h
    · simp at h
    · rename_i t? l? hi
      split at h
      · simp at h
      · rename_i p hs
        simp only [Prod.mk.injEq, Except.ok.injEq, Option.some.injEq] at h
        exact ⟨c, t?, l?, p, hg, hi, hs, h.1.symm, h.2.symm⟩

/-- A stage-4 success yields at most one marker per location handed in. -/
theorem stage4_ok_length {cfg : Config} {geo : String → GeoResp} {L : List Loc}
    {p : List Marker × List CallEv} (h : stage4 cfg geo L = .ok p) :
    p.1.length ≤ L.length := by
  by_cases hL : L.isEmpty
  · simp only [stage4, hL, if_true, Except.ok.injEq] at h
    simp [← h]
  · simp only [stage4, hL, Bool.false_eq_true, if_false] at h
    cases he : extractNames (flatten_tasks (groupByDay L)) with
    | error e => rw [he] at h; cases h
    | ok tasks =>
        rw [he] at h
        cases h
        have h1 := collectMarkers_map_length
          (fun t => get_geocode cfg geo t.2) tasks
        have h2 : (tasks.filter (fun t => (get_geocode cfg geo t.2).isSome)).length ≤
            tasks.length := List.length_filter_le _ _
        have h3 := extractNames_ok_length he
        have h4 := flatten_groupByDay_length L
        simp only [h1]
        omega

/-- A location list containing a nameless location makes Stage 4 raise
`KeyError`. -/
theorem stage4_error_of_nameless {cfg : Config} {geo : String → GeoResp}
    {L : List Loc} {l : Loc} (hl : l ∈ L) (hn : l.name = none) :
    stage4 cfg geo L = .error .keyError := by
  have hne : L.isEmpty = false := by
    cases L with
    | nil => cases hl
    | cons a as => rfl
  have hmem : (dayOf l, l) ∈ flatten_tasks (groupByDay L) := by
    refine (flatten_groupByDay_perm L).mem_iff.mpr ?_
    exact List.mem_map.mpr ⟨l, hl, rfl⟩
  simp only [stage4, hne, Bool.false_eq_true, if_false]
  rw [extractNames_error_of_mem hmem hn]

/-! ## Supporting lemmas: the geocode memo table -/

theorem lookupCache_cons_ne {c : List (String × Option Coord)}
    {e : String × Option Coord} {addr : String} (h : e.1 ≠ addr) :
    lookupCache (e :: c) addr = lookupCache c addr := by
  simp [lookupCache, h]

/-- Once the table holds `addr`, no later request for `addr` goes external
and all return the memoized value. -/
theorem runGeocodes_hit {cfg : Config} {svc : Nat → String → GeoResp}
    {addr : String} {v : Option Coord} :
    ∀ (reqs : List String) (st : GeoState), lookupCache st.cache addr = some v →
      ∀ q ∈ runGeocodes cfg svc st reqs, q.1 = addr → q.2.1 = v ∧ q.2.2 = false := by
  intro reqs
  induction reqs with
  | nil => intro st _ q hq; cases hq
  | cons a as ih =>
      intro st hst q hq hqa
      simp only [runGeocodes] at hq
      cases hla : lookupCache st.cache a with
      | some w =>
          simp only [cachedGeocode, hla] at hq
          rcases List.mem_cons.mp hq with h | h
          · subst h
            simp only at hqa
            subst hqa
            rw [hla] at hst
            injection hst with hwv
            exact ⟨hwv, rfl⟩
          · exact ih st hst q h hqa
      | none =>
          simp only [cachedGeocode, hla] at hq
          rcases List.mem_cons.mp hq with h | h
          · subst h
            simp only at hqa
            subst hqa
            rw [hla] at hst
            exact Option.noConfusion hst
          · have hne : a ≠ addr := by
              intro heq
              subst heq
              rw [hla] at hst
              exact Option.noConfusion hst
            have hst' : lookupCache ((a, get_geocode cfg (svc st.calls) a) :: st.cache)
                addr = some v := by
              rw [lookupCache_cons_ne hne]; exact hst
            exact ih _ hst' q h hqa

/-- Starting from a table without `addr`: at most one external lookup is
made for `addr`, and all requests for `addr` return one common value. -/
theorem runGeocodes_miss {cfg : Config} {svc : Nat → String → GeoResp}
    {addr : String} :
    ∀ (reqs : List String) (st : GeoState), lookupCache st.cache addr = none →
      ((runGeocodes cfg svc st reqs).filter
          (fun q => q.1 == addr && q.2.2)).length ≤ 1 ∧
      ∃ w, ∀ q ∈ runGeocodes cfg svc st reqs, q.1 = addr → q.2.1 = w := by
  intro reqs
  induction reqs with
  | nil =>
      intro st _
      exact ⟨by simp [runGeocodes], none, by intro q hq; cases hq⟩
  | cons a as ih =>
      intro st hst
      simp only [runGeocodes]
      cases hla : lookupCache st.cache a with
      | some w =>
          have hne : a ≠ addr := by
            intro heq
            subst heq
            rw [hla] at hst
            exact Option.noConfusion hst
          simp only [cachedGeocode, hla]
          rcases ih st hst with ⟨h1, w', h2⟩
          constructor
          · simpa [List.filter_cons, hne] using h1
          · exact ⟨w', by
              intro q hq hqa
              rcases List.mem_cons.mp hq with h | h
              · subst h; exact absurd hqa hne
              · exact h2 q h hqa⟩
      | none =>
          simp only [cachedGeocode, hla]
          by_cases heq : a = addr
          · subst heq
            have hst' : lookupCache ((a, get_geocode cfg (svc st.calls) a) :: st.cache)
                a = some (get_geocode cfg (svc st.calls) a) := by
              simp [lookupCache]
            have htail := @runGeocodes_hit cfg svc a (get_geocode cfg (svc st.calls) a) as
              ⟨(a, get_geocode cfg (svc st.calls) a) :: st.cache, st.calls + 1⟩ hst'
            constructor
            · have hzero : ((runGeocodes cfg svc
                  ⟨(a, get_geocode cfg (svc st.calls) a) :: st.cache, st.calls + 1⟩
                  as).filter (fun q => q.1 == a && q.2.2)).length = 0 := by
                rw [List.length_eq_zero, List.filter_eq_nil_iff]
                intro q hq
                by_cases hqa : q.1 = a
                · have := (htail q hq hqa).2
                  simp [this]
                · simp [hqa]
              simp [List.filter_cons, hzero]
            · refine ⟨get_geocode cfg (svc st.calls) a, ?_⟩
              intro q hq hqa
              rcases List.mem_cons.mp hq with h | h
              · subst h; rfl
              · exact (htail q h hqa).1
          · have hst' : lookupCache ((a, get_geocode cfg (svc st.calls) a) :: st.cache)
                addr = none := by
              rw [lookupCache_cons_ne heq]; exact hst
            rcases ih ⟨(a, get_geocode cfg (svc st.calls) a) :: st.cache,
              st.calls + 1⟩ hst' with ⟨h1, w', h2⟩
            constructor
            · simpa [List.filter_cons, heq] using h1
            · exact ⟨w', by
                intro q hq hqa
                rcases List.mem_cons.mp hq with h | h
                · subst h; exact absurd hqa heq
                · exact h2 q h hqa⟩

/-! ## More supporting lemmas -/

theorem filter_isSome_isNone_length {α β : Type} (f : α → Option β) (L : List α) :
    (L.filter (fun a => (f a).isSome)).length +
      (L.filter (fun a => (f a).isNone)).length = L.length := by
  induction L with
  | nil => simp
  | cons a L ih =>
      cases hf : f a with
      | none => simp [List.filter_cons, hf, ← ih]; omega
      | some b => simp [List.filter_cons, hf, ← ih]; omega

theorem stage4Markers_length (cfg : Config) (geo : String → GeoResp) (L : List Loc) :
    (stage4Markers cfg geo L).length =
      (L.filter (fun l => (get_geocode cfg geo (l.name.getD "")).isSome)).length := by
  have h1 := collectMarkers_map_length (fun t => get_geocode cfg geo t.2) (namedTasks L)
  rw [stage4Markers, h1]
  rw [← List.countP_eq_length_filter, ← List.countP_eq_length_filter]
  rw [namedTasks, List.countP_map]
  rw [(flatten_groupByDay_perm L).countP_eq]
  rw [List.countP_map]
  rfl

/-! ## Claim theorems -/

/-- C2: a run whose destination text cannot be resolved aborts at Stage 1:
the only external call issued is the destination geocode itself — zero
calls go to the hotel finder, weather fetcher, itinerary generator,
location geocoder or router — and the caller receives the abort signal
(`None`) instead of a result bundle. -/
theorem c2_unresolvable_destination_aborts (env : Oracle) (cfg : Config)
    (destination preferences : String) (duration : Nat)
    (h : get_geocode cfg env.geocode destination = none) :
    main_task env cfg destination preferences duration =
      ([.geocodeCall destination], .ok none) := by
  simp only [main_task, h]

theorem c2_witness :
    get_geocode cfgA envC2.geocode "Atlantis" = none ∧
    main_task envC2 cfgA "Atlantis" "spa" 3 =
      ([.geocodeCall "Atlantis"], .ok none) :=
  ⟨rfl, c2_unresolvable_destination_aborts envC2 cfgA "Atlantis" "spa" 3 rfl⟩

/-- C10: reading `loc['name']` is unchecked: if the generator returns a
location without a `name` key, the Stage-4 loop raises `KeyError`, the
exception escapes `main_task`, and no bundle is produced; a missing
`day` key, by contrast, is tolerated and defaults the location to day 1. -/
theorem c10_missing_name_crashes :
    (∀ (env : Oracle) (cfg : Config) (destination preferences : String)
        (duration : Nat) (c : Coord) (t? : Option String) (locs : List Loc) (l : Loc),
        get_geocode cfg env.geocode destination = some c →
        create_itinerary env.gemini = .ok (.dict t? (some locs)) →
        l ∈ locs → l.name = none →
        (main_task env cfg destination preferences duration).2 = .error .keyError) ∧
    (∀ l : Loc, l.day = none → dayOf l = 1) := by
  constructor
  · intro env cfg destination preferences duration c t? locs l hg hi hl hn
    have hs : stage4 cfg env.geocode locs = .error .keyError :=
      stage4_error_of_nameless hl hn
    simp only [main_task, hg, hi, Option.getD_some, hs]
  · intro l h
    simp [dayOf, h]

theorem c10_witness :
    (main_task envC10 cfgA "Rome" "x" 2).2 = .error .keyError ∧
    dayOf { day := none, name := some "n" } = 1 :=
  ⟨c10_missing_name_crashes.1 envC10 cfgA "Rome" "x" 2 ⟨1, 2⟩ (some "t")
      [{ day := some 1, name := none }] { day := some 1, name := none }
      rfl rfl (by decide) rfl,
   c10_missing_name_crashes.2 { day := none, name := some "n" } rfl⟩

/-- C3: when every location carries a name, Stage 4 issues exactly one
geocode lookup per location (`stage4Events` is a permutation of one call
per location), every produced marker carries the day and name of its
originating location together with that location's own geocode result
(pairing is by originating request, not completion order), and if exactly
one location's geocode fails the marker list is exactly one shorter than
the location list. -/
theorem c3_location_geocode_fanout (cfg : Config) (geo : String → GeoResp)
    (L : List Loc) (hn : ∀ l ∈ L, l.name.isSome) :
    stage4 cfg geo L = .ok (stage4Markers cfg geo L, stage4Events L) ∧
    (stage4Events L).Perm (L.map (fun l => CallEv.geocodeCall (l.name.getD ""))) ∧
    (∀ m ∈ stage4Markers cfg geo L, ∃ l ∈ L, l.name = some m.name ∧
      dayOf l = m.day ∧ get_geocode cfg geo m.name = some ⟨m.lat, m.lng⟩) ∧
    ((L.filter (fun l => (get_geocode cfg geo (l.name.getD "")).isNone)).length = 1 →
      (stage4Markers cfg geo L).length = L.length - 1) := by
  refine ⟨stage4_ok_of_names cfg geo L hn, ?_, ?_, ?_⟩
  · have hperm := (flatten_groupByDay_perm L).map
      (fun q => CallEv.geocodeCall (q.2.name.getD ""))
    simpa [stage4Events, namedTasks, List.map_map, Function.comp] using hperm
  · intro m hm
    rw [stage4Markers, collectMarkers_map_eq_filterMap] at hm
    rcases List.mem_filterMap.mp hm with ⟨t, ht, hmk⟩
    cases hgeo : get_geocode cfg geo t.2 with
    | none => rw [hgeo] at hmk; cases hmk
    | some c =>
        rw [hgeo] at hmk
        have hmk : mkMarker t.1 t.2 c = m := by simpa using hmk
        rcases List.mem_map.mp ht with ⟨q, hq, rfl⟩
        have hq' := (flatten_groupByDay_perm L).mem_iff.mp hq
        rcases List.mem_map.mp hq' with ⟨l, hl, rfl⟩
        refine ⟨l, hl, ?_, ?_, ?_⟩
        · cases hlname : l.name with
          | none => have := hn l hl; rw [hlname] at this; cases this
          | some nm => simp [← hmk, mkMarker, hlname]
        · simp [← hmk, mkMarker]
        · rw [← hmk]
          simpa [mkMarker] using hgeo
  · intro hone
    have hlen := stage4Markers_length cfg geo L
    have htot := filter_isSome_isNone_length
      (fun l => get_geocode cfg geo (l.name.getD "")) L
    omega

theorem c3_witness :
    (∀ l ∈ locsC3, l.name.isSome) ∧
    (locsC3.filter
        (fun l => (get_geocode cfgA geoC3 (l.name.getD "")).isNone)).length = 1 ∧
    (stage4Markers cfgA geoC3 locsC3).length = locsC3.length - 1 :=
  ⟨by decide, by decide,
   (c3_location_geocode_fanout cfgA geoC3 locsC3 (by decide)).2.2.2 (by decide)⟩

/-! ## Supporting lemmas for C4 -/

theorem get_google_directions_congr {r1 r2 : List Coord → RouterResp}
    {wps : List Coord} (h : r1 wps = r2 wps) :
    get_google_directions r1 wps = get_google_directions r2 wps := by
  simp only [get_google_directions, h]

theorem collectPolylines_filter_congr (d : Int)
    (f1 f2 : Int × List Coord → Option String) :
    ∀ ts : List (Int × List Coord), (∀ t ∈ ts, t.1 ≠ d → f1 t = f2 t) →
      (collectPolylines ts (ts.map f1)).filter (fun p => p.day != d) =
      (collectPolylines ts (ts.map f2)).filter (fun p => p.day != d) := by
  intro ts
  induction ts with
  | nil => intro _; rfl
  | cons t ts ih =>
      intro h
      have htail := ih (fun t' ht' => h t' (List.mem_cons_of_mem t ht'))
      by_cases ht : t.1 = d
      · subst ht
        simp only [List.map_cons]
        cases hf1 : f1 t with
        | none =>
            cases hf2 : f2 t with
            | none => simpa [collectMarkers] using htail
            | some s2 => simpa [collectPolylines, List.filter_cons] using htail
        | some s1 =>
            cases hf2 : f2 t with
            | none => simpa [collectPolylines, List.filter_cons] using htail
            | some s2 => simpa [collectPolylines, List.filter_cons] using htail
      · have hf := h t (List.mem_cons_self t ts) ht
        simp only [List.map_cons, hf]
        cases hf2 : f2 t with
        | none => simpa [collectPolylines] using htail
        | some s =>
            simp only [collectPolylines, List.filter_cons]
            have hd : ((⟨t.1, s, get_day_color t.1⟩ : Polyline).day != d) = true := by
              simpa using ht
            rw [hd]
            simp only [htail]

/-- C4: Stage 5 groups markers by day and (a) a waypoint list shorter
than two — in particular a day with exactly one marker — never produces
an external router call, (b) a day whose group has fewer than two markers
never yields a polyline, and (c) changing the router's answer for one
day's waypoints leaves every other day's polylines unchanged, so a
routing failure for one day only omits that day's polyline. -/
theorem c4_per_day_routing (router r1 r2 : List Coord → RouterResp)
    (ms : List Marker) (d : Int) :
    (∀ wps : List Coord, wps.length < 2 →
        CallEv.routerCall wps ∉ (stage5 router ms).2) ∧
    (∀ g ∈ groupMarkersByDay ms, g.2.length < 2 →
        ∀ p ∈ (stage5 router ms).1, p.day ≠ g.1) ∧
    ((∀ g ∈ groupMarkersByDay ms, g.1 ≠ d →
        r1 (g.2.map (fun m => Coord.mk m.lat m.lng)) =
          r2 (g.2.map (fun m => Coord.mk m.lat m.lng))) →
      (stage5 r1 ms).1.filter (fun p => p.day != d) =
        (stage5 r2 ms).1.filter (fun p => p.day != d)) := by
  refine ⟨?_, ?_, ?_⟩
  · intro wps hwps hmem
    by_cases hms : ms.isEmpty
    · simp [stage5, hms] at hmem
    · simp only [stage5, hms, Bool.false_eq_true, if_false] at hmem
      rcases mem_joinEvents hmem with ⟨o, ho, he⟩
      rcases List.mem_map.mp ho with ⟨t, _, rfl⟩
      rcases get_google_directions_events he with ⟨hlen, heq⟩
      injection heq with hweq
      rw [hweq] at hwps
      omega
  · intro g hg hglen p hp
    intro hpd
    by_cases hms : ms.isEmpty
    · simp [stage5, hms] at hp
    · simp only [stage5, hms, Bool.false_eq_true, if_false] at hp
      rcases mem_collectPolylines_map hp with ⟨t, ht, hd, hsome⟩
      rcases List.mem_map.mp ht with ⟨g', hg', rfl⟩
      have hgd : g'.1 = g.1 := by rw [← hd, hpd]
      have hgs := (mem_groupMarkersByDay hg).1
      have hgs' := (mem_groupMarkersByDay hg').1
      have hsame : g'.2 = g.2 := by rw [hgs', hgd, ← hgs]
      have hlen : (g'.2.map (fun m => Coord.mk m.lat m.lng)).length < 2 := by
        rw [hsame]
        simpa using hglen
      rw [get_google_directions_short hlen] at hsome
      cases hsome
  · intro hagree
    by_cases hms : ms.isEmpty
    · simp [stage5, hms]
    · simp only [stage5, hms, Bool.false_eq_true, if_false]
      refine collectPolylines_filter_congr d _ _ (routeTasks ms) ?_
      intro t ht htd
      rcases List.mem_map.mp ht with ⟨g, hg, rfl⟩
      have := hagree g hg htd
      exact congrArg Prod.fst (get_google_directions_congr this)

theorem c4_witness :
    CallEv.routerCall [⟨3, 3⟩] ∉ (stage5 r1C4 msC4).2 ∧
    (stage5 r1C4 msC4).1.filter (fun p => p.day != 1) =
      (stage5 r2C4 msC4).1.filter (fun p => p.day != 1) :=
  ⟨(c4_per_day_routing r1C4 r1C4 r2C4 msC4 1).1 [⟨3, 3⟩] (by decide),
   (c4_per_day_routing r1C4 r1C4 r2C4 msC4 1).2.2 (by decide)⟩

/-- C8: every bundle a run produces satisfies both invariants: its marker
count is at most the number of locations the itinerary generator
returned, and every polyline's day is the day of some marker. -/
theorem c8_bundle_invariants (env : Oracle) (cfg : Config)
    (destination preferences : String) (duration : Nat)
    (tr : List CallEv) (b : Bundle)
    (h : main_task env cfg destination preferences duration = (tr, .ok (some b))) :
    b.map_markers.length ≤ (generatedLocations env.gemini).length ∧
    ∀ p ∈ b.route_polylines, ∃ m ∈ b.map_markers, m.day = p.day := by
  rcases main_task_ok_inv h with ⟨c, t?, l?, p, hg, hi, hs, htr, hb⟩
  have hgen : generatedLocations env.gemini = l?.getD [] := by
    simp [generatedLocations, hi]
  subst hb
  constructor
  · rw [hgen]
    exact stage4_ok_length hs
  · intro pl hpl
    exact stage5_day_mem hpl

theorem c8_witness :
    main_task envC8 cfgA "Mumbai" "spa" 3 =
      ((main_task envC8 cfgA "Mumbai" "spa" 3).1,
       .ok (some (bundleOrDefault (main_task envC8 cfgA "Mumbai" "spa" 3).2))) ∧
    (bundleOrDefault (main_task envC8 cfgA "Mumbai" "spa" 3).2).map_markers.length ≤
      (generatedLocations envC8.gemini).length := by
  have h : main_task envC8 cfgA "Mumbai" "spa" 3 =
      ((main_task envC8 cfgA "Mumbai" "spa" 3).1,
       .ok (some (bundleOrDefault (main_task envC8 cfgA "Mumbai" "spa" 3).2))) := by
    rfl
  exact ⟨h, (c8_bundle_invariants envC8 cfgA "Mumbai" "spa" 3 _ _ h).1⟩

/-- C1 (counterexample): a run that reaches Stage 3 with a healthy
weather fetch but a Gemini 200 response whose body is not JSON: the
`TypeError` escaping the itinerary task propagates through the unguarded
`asyncio.gather`, the run ends in an error instead of aggregating, and
the weather task's successful result is never collected into a bundle. -/
theorem c1_counterexample :
    (main_task envC1x cfgA "Paris" "pool" 2).2 = .error .typeError ∧
    get_daily_forecast envC1x.weather ≠ [] :=
  ⟨rfl, by decide⟩

/-- C1 (amended): faults the fan-out tasks catch themselves are captured
as sentinel values and aggregation proceeds with them — any weather fault
yields its captured (possibly empty) forecast, any per-location geocode
fault only drops markers, any router fault only drops polylines — but
this holds only when the itinerary task returns instead of raising, i.e.
when its response avoids the escaping non-JSON-body path. -/
theorem c1_amended_fault_isolation (env : Oracle) (cfg : Config)
    (destination preferences : String) (duration : Nat) (c : Coord)
    (t? : Option String) (l? : Option (List Loc))
    (hg : get_geocode cfg env.geocode destination = some c)
    (hi : create_itinerary env.gemini = .ok (.dict t? l?))
    (hn : ∀ l ∈ l?.getD [], l.name.isSome) :
    ∃ tr b, main_task env cfg destination preferences duration =
        (tr, .ok (some b)) ∧
      b.weather_df = get_daily_forecast env.weather ∧
      b.itinerary_text = t?.getD "Error" ∧
      b.map_markers = stage4Markers cfg env.geocode (l?.getD []) ∧
      b.route_polylines =
        (stage5 env.router (stage4Markers cfg env.geocode (l?.getD []))).1 := by
  have hs := stage4_ok_of_names cfg env.geocode (l?.getD []) hn
  exact ⟨_, _, main_task_success hg hi hs, rfl, rfl, rfl, rfl⟩

theorem c1_amended_witness :
    ∃ tr b, main_task envC1a cfgA "Lyon" "park" 2 = (tr, .ok (some b)) ∧
      b.weather_df = get_daily_forecast envC1a.weather ∧
      b.itinerary_text = (some "itin").getD "Error" ∧
      b.map_markers = stage4Markers cfgA envC1a.geocode
        ((some [{ day := some 1, name := some "Parc" }] : Option (List Loc)).getD []) ∧
      b.route_polylines = (stage5 envC1a.router (stage4Markers cfgA envC1a.geocode
        ((some [{ day := some 1, name := some "Parc" }] :
            Option (List Loc)).getD []))).1 :=
  c1_amended_fault_isolation envC1a cfgA "Lyon" "park" 2 ⟨4, 5⟩ (some "itin")
    (some [{ day := some 1, name := some "Parc" }]) rfl rfl (by decide)

/-- C5 (counterexample): a run whose hotel search returns the empty list
can still abort without a bundle when the itinerary task raises, so the
empty hotel result does not by itself guarantee a `ResultBundle`. -/
theorem c5_counterexample :
    find_hotels envC5x.chroma = [] ∧
    (main_task envC5x cfgA "Mumbai" "spa hotel" 3).2 = .error .typeError :=
  ⟨rfl, rfl⟩

/-- C5 (amended): an empty hotel search never aborts the run at the hotel
stage: the orchestrator synthesizes the placeholder named
`Hotel in {destination}`, passes it to the itinerary-generation call, and
produces a bundle provided the later stages do not raise an escaping
exception (non-JSON itinerary body, or a location without a name). -/
theorem c5_amended_placeholder (env : Oracle) (cfg : Config)
    (destination preferences : String) (duration : Nat) (c : Coord)
    (t? : Option String) (l? : Option (List Loc))
    (hg : get_geocode cfg env.geocode destination = some c)
    (hh : find_hotels env.chroma = [])
    (hi : create_itinerary env.gemini = .ok (.dict t? l?))
    (hn : ∀ l ∈ l?.getD [], l.name.isSome) :
    (placeholderHotel destination).name = some ("Hotel in " ++ destination) ∧
    CallEv.geminiCall destination (placeholderHotel destination) duration ∈
      (main_task env cfg destination preferences duration).1 ∧
    ∃ b, (main_task env cfg destination preferences duration).2 = .ok (some b) ∧
      b.recommended_hotels = [] := by
  have hs := stage4_ok_of_names cfg env.geocode (l?.getD []) hn
  have hrun := @main_task_success env cfg destination preferences duration c t? l?
    _ hg hi hs
  refine ⟨rfl, ?_, ?_⟩
  · rw [hrun]
    simp [mainTrace, hh, chooseTopHotel]
  · rw [hrun]
    exact ⟨_, rfl, by simp [mkBundle, hh]⟩

theorem c5_amended_witness :
    (placeholderHotel "Mumbai").name = some ("Hotel in " ++ "Mumbai") ∧
    CallEv.geminiCall "Mumbai" (placeholderHotel "Mumbai") 3 ∈
      (main_task envC5a cfgA "Mumbai" "spa hotel" 3).1 ∧
    ∃ b, (main_task envC5a cfgA "Mumbai" "spa hotel" 3).2 = .ok (some b) ∧
      b.recommended_hotels = [] :=
  c5_amended_placeholder envC5a cfgA "Mumbai" "spa hotel" 3 ⟨19, 72⟩
    (some "plan") (some []) rfl rfl rfl (by decide)

/-- C6 (counterexample): when the hotel database query raises, the hotel
finder does not return the empty list: it returns the one-element
sentinel list with the hotel named `Error`. -/
theorem c6_counterexample :
    find_hotels .raises = [errorHotel] ∧ [errorHotel] ≠ ([] : List Hotel) :=
  ⟨rfl, by decide⟩

/-- C6 (amended): the hotel finder signals a no-match result with the
empty list, but a raised error with the one-element sentinel list, so the
orchestrator's placeholder branch fires only in the no-match case — after
a query error the chosen top hotel is the `Error` sentinel, not the
placeholder. -/
theorem c6_amended_failure_signals :
    find_hotels (.ok []) = [] ∧
    find_hotels .raises = [errorHotel] ∧
    ∀ destination : String,
      chooseTopHotel (find_hotels .raises) destination = errorHotel ∧
      chooseTopHotel (find_hotels .raises) destination ≠
        placeholderHotel destination := by
  refine ⟨rfl, rfl, ?_⟩
  intro destination
  refine ⟨rfl, ?_⟩
  intro hcontra
  have hname := congrArg Hotel.name hcontra
  simp only [chooseTopHotel, find_hotels, errorHotel, placeholderHotel,
    Option.some.injEq] at hname
  have hlen := congrArg String.length hname
  rw [String.length_append] at hlen
  have h5 : "Error".length = 5 := rfl
  have h9 : "Hotel in ".length = 9 := rfl
  rw [h5, h9] at hlen
  omega

theorem c6_witness :
    chooseTopHotel (find_hotels .raises) "Mumbai" = errorHotel ∧
    chooseTopHotel (find_hotels .raises) "Mumbai" ≠ placeholderHotel "Mumbai" :=
  c6_amended_failure_signals.2.2 "Mumbai"

/-- Every Gemini failure the agent's own handlers catch degrades to a
sentinel dict whose text starts with `Error` and whose location list is
empty. -/
theorem create_itinerary_guarded {g : GeminiResp}
    (h : geminiFailedGuarded g = true) :
    ∃ rest, create_itinerary g = .ok (.dict (some ("Error" ++ rest)) (some [])) := by
  cases g with
  | transportError emsg =>
      refine ⟨": " ++ emsg, ?_⟩
      have hx : ("Error" : String) ++ ": " = "Error: " := by decide
      rw [← String.append_assoc, hx]
      rfl
  | httpStatusError body =>
      refine ⟨": Gemini API request failed: " ++ body, ?_⟩
      have hx : ("Error" : String) ++ ": Gemini API request failed: " =
          "Error: Gemini API request failed: " := by decide
      rw [← String.append_assoc, hx]
      rfl
  | okNonJsonBody => simp [geminiFailedGuarded] at h
  | okJson e =>
      cases e with
      | blocked =>
          refine ⟨": The AI response was blocked or empty.", ?_⟩
          have hx : ("Error" : String) ++ ": The AI response was blocked or empty." =
              "Error: The AI response was blocked or empty." := by decide
          rw [hx]
          rfl
      | badShape emsg =>
          refine ⟨": " ++ emsg, ?_⟩
          have hx : ("Error" : String) ++ ": " = "Error: " := by decide
          rw [← String.append_assoc, hx]
          rfl
      | text p =>
          cases p with
          | parsesTo v => simp [geminiFailedGuarded] at h
          | cleanedParsesTo v => simp [geminiFailedGuarded] at h
          | unparsable =>
              refine ⟨": The AI returned an invalid itinerary format.", ?_⟩
              have hx : ("Error" : String) ++
                  ": The AI returned an invalid itinerary format." =
                  "Error: The AI returned an invalid itinerary format." := by decide
              rw [hx]
              rfl

/-- C7 (amended): a failed weather fetch yields an empty forecast and
changing the weather outcome of a bundle-producing run changes only the
bundle's forecast field (itinerary text, markers and polylines are
unaffected); every itinerary failure the agent catches (timeout,
transport or HTTP error, blocked response, unparsable candidate text)
degrades to an `Error`-prefixed itinerary text with an empty location
list and the run still aggregates; but a 200 itinerary response whose
body is not JSON escapes and aborts the run. -/
theorem c7_amended_failure_degradation :
    (get_daily_forecast .httpError = [] ∧ get_daily_forecast .noDaily = []) ∧
    (∀ (env : Oracle) (cfg : Config) (destination preferences : String)
        (duration : Nat) (w : WeatherResp) (tr : List CallEv) (b : Bundle),
        main_task env cfg destination preferences duration = (tr, .ok (some b)) →
        main_task { env with weather := w } cfg destination preferences duration =
          (tr, .ok (some { b with weather_df := get_daily_forecast w }))) ∧
    (∀ (env : Oracle) (cfg : Config) (destination preferences : String)
        (duration : Nat) (c : Coord),
        get_geocode cfg env.geocode destination = some c →
        geminiFailedGuarded env.gemini = true →
        ∃ tr b rest, main_task env cfg destination preferences duration =
            (tr, .ok (some b)) ∧
          b.itinerary_text = "Error" ++ rest ∧ b.map_markers = []) := by
  refine ⟨⟨rfl, rfl⟩, ?_, ?_⟩
  · intro env cfg destination preferences duration w tr b h
    rcases main_task_ok_inv h with ⟨c, t?, l?, p, hg, hi, hs, htr, hb⟩
    subst htr
    subst hb
    have hrun := @main_task_success { env with weather := w } cfg destination
      preferences duration c t? l? p hg hi hs
    rw [hrun]
    rfl
  · intro env cfg destination preferences duration c hg hgg
    rcases create_itinerary_guarded hgg with ⟨rest, hi⟩
    have hs : stage4 cfg env.geocode
        ((some ([] : List Loc)).getD []) = .ok ([], []) := rfl
    have hrun := @main_task_success env cfg destination preferences duration c
      (some ("Error" ++ rest)) (some []) ([], []) hg hi hs
    exact ⟨_, _, rest, hrun, rfl, rfl⟩

/-- C7 (counterexample): the itinerary generator fails with a 200
response whose body is not JSON; instead of the bundle carrying an error
itinerary text, the run aborts with a `TypeError` and no bundle exists,
contradicting the claim that no itinerary failure aborts the run. -/
theorem c7_counterexample :
    create_itinerary envC7x.gemini = .error .typeError ∧
    (main_task envC7x cfgA "Goa" "beach" 2).2 = .error .typeError :=
  ⟨rfl, rfl⟩

theorem c7_amended_witness :
    geminiFailedGuarded envC7a.gemini = true ∧
    ∃ tr b rest, main_task envC7a cfgA "Goa" "beach" 2 = (tr, .ok (some b)) ∧
      b.itinerary_text = "Error" ++ rest ∧ b.map_markers = [] :=
  ⟨rfl, c7_amended_failure_degradation.2.2 envC7a cfgA "Goa" "beach" 2
    ⟨15, 74⟩ rfl rfl⟩

/-- C9: geocoding through the memo table is idempotent and memoized by
exact input text: over any request sequence of one run (the table
persists for the TTL window), at most one actual external lookup is made
for a given text, and every request for that text returns the same
result — even though a second physical lookup could have answered
differently. -/
theorem c9_memoized_geocoding (cfg : Config) (svc : Nat → String → GeoResp)
    (reqs : List String) (addr : String) :
    lookupsFor cfg svc reqs addr ≤ 1 ∧
    ∀ x ∈ resultsFor cfg svc reqs addr, ∀ y ∈ resultsFor cfg svc reqs addr,
      x = y := by
  have h0 : lookupCache (GeoState.mk [] 0).cache addr = none := rfl
  rcases runGeocodes_miss reqs ⟨[], 0⟩ h0 with ⟨h1, w, h2⟩
  refine ⟨h1, ?_⟩
  intro x hx y hy
  rcases List.mem_map.mp hx with ⟨q, hq, rfl⟩
  rcases List.mem_map.mp hy with ⟨r, hr, rfl⟩
  have hqf := List.mem_filter.mp hq
  have hrf := List.mem_filter.mp hr
  have hqa : q.1 = addr := by simpa using hqf.2
  have hra : r.1 = addr := by simpa using hrf.2
  rw [h2 q hqf.1 hqa, h2 r hrf.1 hra]

theorem c9_witness :
    lookupsFor cfgA svcC9 ["Goa", "Goa"] "Goa" ≤ 1 ∧
    (some (Coord.mk 7 8) : Option Coord) = some (Coord.mk 7 8) :=
  ⟨(c9_memoized_geocoding cfgA svcC9 ["Goa", "Goa"] "Goa").1,
   (c9_memoized_geocoding cfgA svcC9 ["Goa", "Goa"] "Goa").2
     (some (Coord.mk 7 8)) (by decide) (some (Coord.mk 7 8)) (by decide)⟩

end Planner
